import Mathlib

/-!
Shallow embedding of the EliteContent frontend form pipeline
(Angular components under src/frontend/src/app) and the parts of
ApiService they call.  Each component class is modelled as a state
structure plus pure functions for its handlers; the asynchronous
subscribe callback is modelled as an explicit settle step taking the
outcome of the one outstanding request.
-/

/-- Model of the JavaScript String.prototype.trim: drop whitespace
characters from both ends. -/
def jsTrim (s : String) : String :=
  String.mk (((s.data.dropWhile Char.isWhitespace).reverse.dropWhile Char.isWhitespace).reverse)

/-- Split a character list at every character satisfying p, keeping
empty pieces, exactly as the JavaScript String.prototype.split with a
character-class regex does. -/
def splitChars (p : Char → Bool) : List Char → List (List Char)
  | [] => [[]]
  | c :: cs =>
    if p c then [] :: splitChars p cs
    else
      match splitChars p cs with
      | [] => [[c]]
      | piece :: rest => (c :: piece) :: rest

/-- Model of the JavaScript s.split with a single-character or
character-class separator: empty pieces are kept. -/
def jsSplit (p : Char → Bool) (s : String) : List String :=
  (splitChars p s.data).map String.mk

/-- The enhanced components parse a textarea with
split(/[,\n]/).map(trim).filter(nonempty): split on comma or newline,
trim every piece, drop empty pieces, order preserved. -/
def parseCommaNewline (s : String) : List String :=
  ((jsSplit (fun c => c = ',' || c = '\n') s).map jsTrim).filter (fun p => p ≠ "")

/-- The legacy components parse a textarea with
split(a newline).filter(point => point.trim()): split on newline only and
drop whitespace-only pieces; the surviving pieces are NOT trimmed. -/
def splitNewlineTruthy (s : String) : List String :=
  (jsSplit (fun c => c = '\n') s).filter (fun p => jsTrim p ≠ "")

/-- Model of a JavaScript Set built from a list: keep the first
occurrence of every value, in order.  seen accumulates values already
emitted. -/
def jsSetDedupAux (seen : List String) : List String → List String
  | [] => []
  | x :: xs =>
    if seen.contains x then jsSetDedupAux seen xs
    else x :: jsSetDedupAux (seen ++ [x]) xs

/-- Model of the JavaScript spread [...new Set(l)]. -/
def jsSetDedup (l : List String) : List String :=
  jsSetDedupAux [] l

/-- A JSON-serialisable value as it appears in the request payloads
built by the components. -/
inductive JsonVal where
  | str (s : String)
  | arr (xs : List String)
  | num (n : Int)
  | boolean (b : Bool)
deriving DecidableEq

/-- A request payload after JSON serialisation: the ordered list of
keys actually sent.  A key whose value was undefined in the source
object is dropped by JSON.stringify, so it simply does not appear. -/
abbrev Payload := List (String × JsonVal)

/-- Helper for the pattern key: value or undefined used for optional
string fields: the key is present exactly when the string is truthy
(non-empty). -/
def optStr (k : String) (v : String) : Payload :=
  if v = "" then [] else [(k, JsonVal.str v)]

/-- Outcome delivered to the subscribe callback of the single request
issued by a submit handler: the next branch with a decoded response, or
the error branch, whose error object may carry a backend detail
message. -/
inductive SubmitOutcome (ρ : Type) where
  | success (resp : ρ)
  | failure (detail : Option String)

/-- Result of a renderer action: no-op, a rendered text blob, or a
thrown TypeError. -/
inductive RenderOutcome where
  | noop
  | rendered (content : String)
  | thrown
deriving DecidableEq

/-- JavaScript template-literal interpolation of a possibly missing
field: undefined prints as the string undefined. -/
def jsDisplay : Option String → String
  | some s => s
  | none => "undefined"

/-! ## EmailComponent, enhanced revision (email.component.ts, second
revision in the file: fields emailPurpose / recipientType /
keyPointsInput / keyPoints and handlers addKeyPoint, generateEmail,
copyToClipboard). -/

/-- Response body as read by the email component renderer: only the
email field is ever accessed, and it may be absent. -/
structure EmailResp where
  email : Option String
deriving DecidableEq

/-- State of the enhanced EmailComponent: every class field bound by
the form, plus isLoading / result / error. -/
structure EmailV2State where
  emailPurpose : String
  recipientType : String
  keyPointsInput : String
  keyPoints : List String
  toneStyle : String
  urgencyLevel : String
  callToAction : String
  signatureDetails : String
  subjectLinePreference : String
  context : String
  isLoading : Bool
  result : Option EmailResp
  error : String
deriving DecidableEq

/-- Field initialisers of the enhanced EmailComponent class. -/
def EmailV2.init : EmailV2State :=
  { emailPurpose := "", recipientType := "", keyPointsInput := "", keyPoints := []
    toneStyle := "Professional", urgencyLevel := "Normal", callToAction := ""
    signatureDetails := "", subjectLinePreference := "", context := ""
    isLoading := false, result := none, error := "" }

/-- addKeyPoint: if the buffer is non-blank, push the trimmed buffer
(as a single item, no splitting, no deduplication) and clear the
buffer. -/
def EmailV2.addKeyPoint (st : EmailV2State) : EmailV2State :=
  if jsTrim st.keyPointsInput ≠ "" then
    { st with keyPoints := st.keyPoints ++ [jsTrim st.keyPointsInput], keyPointsInput := "" }
  else st

/-- The data object built by generateEmail, after JSON serialisation
(undefined-valued optional keys dropped). -/
def EmailV2.payload (st : EmailV2State) : Payload :=
  [("email_purpose", JsonVal.str st.emailPurpose),
   ("recipient_type", JsonVal.str st.recipientType),
   ("key_points", JsonVal.arr (parseCommaNewline st.keyPointsInput)),
   ("tone_style", JsonVal.str st.toneStyle),
   ("urgency_level", JsonVal.str st.urgencyLevel)]
  ++ optStr ("call_to_action") st.callToAction
  ++ optStr ("signature_details") st.signatureDetails
  ++ optStr ("subject_line_preference") st.subjectLinePreference
  ++ optStr ("context") st.context

/-- generateEmail up to the point the request is issued: on validation
failure returns the error state and no request; on pass returns the
state with isLoading set and error / result cleared, together with the
payload handed to ApiService.generateEmail. -/
def EmailV2.generateEmail (st : EmailV2State) : EmailV2State × Option Payload :=
  if st.emailPurpose = "" ∨ st.recipientType = "" ∨ jsTrim st.keyPointsInput = "" then
    ({ st with error := "Please fill in all required fields." }, none)
  else
    ({ st with isLoading := true, error := "", result := none }, some (EmailV2.payload st))

/-- The subscribe callback of generateEmail. -/
def EmailV2.settle (st : EmailV2State) (o : SubmitOutcome EmailResp) : EmailV2State :=
  match o with
  | SubmitOutcome.success r => { st with result := some r, isLoading := false }
  | SubmitOutcome.failure _ =>
    { st with error := "Failed to generate email. Please try again.", isLoading := false }

/-- copyToClipboard: writes result.email when it is truthy, otherwise
does nothing. -/
def EmailV2.copyToClipboard (st : EmailV2State) : RenderOutcome :=
  match st.result with
  | none => RenderOutcome.noop
  | some r =>
    match r.email with
    | none => RenderOutcome.noop
    | some e => if e = "" then RenderOutcome.noop else RenderOutcome.rendered e

/-! ## EmailComponent, first revision (email.component.ts, first
revision in the file: fields emailType / recipient / subject /
keyPoints and handler generateEmail). -/

/-- State of the first-revision EmailComponent. -/
structure EmailV1State where
  emailType : String
  recipient : String
  subject : String
  keyPoints : String
  tone : String
  length : String
  isLoading : Bool
  result : Option EmailResp
  error : String
deriving DecidableEq

/-- Field initialisers of the first-revision EmailComponent class. -/
def EmailV1.init : EmailV1State :=
  { emailType := "professional", recipient := "", subject := "", keyPoints := ""
    tone := "professional", length := "medium"
    isLoading := false, result := none, error := "" }

/-- generateEmail of the first revision: validation requires subject
and keyPoints non-blank; the payload splits keyPoints on newline with a
truthiness filter. -/
def EmailV1.generateEmail (st : EmailV1State) : EmailV1State × Option Payload :=
  if jsTrim st.subject = "" ∨ jsTrim st.keyPoints = "" then
    ({ st with error := "Please enter a subject and key points" }, none)
  else
    ({ st with isLoading := true, error := "", result := none },
     some [("email_type", JsonVal.str st.emailType),
           ("recipient", JsonVal.str st.recipient),
           ("subject", JsonVal.str st.subject),
           ("key_points", JsonVal.arr (splitNewlineTruthy st.keyPoints)),
           ("tone", JsonVal.str st.tone),
           ("length", JsonVal.str st.length)])

/-- The subscribe callback of the first-revision generateEmail. -/
def EmailV1.settle (st : EmailV1State) (o : SubmitOutcome EmailResp) : EmailV1State :=
  match o with
  | SubmitOutcome.success r => { st with result := some r, isLoading := false }
  | SubmitOutcome.failure _ =>
    { st with error := "Failed to generate email. Please try again.", isLoading := false }

/-! ## ResumeComponent (resume.component.ts: file upload, addSkill /
removeSkill, generateResume, downloadResume) and the multipart body
built for it by ApiService.generateResume (api.service.ts). -/

/-- A selected browser file: the fields the component reads. -/
structure FileInfo where
  mimeType : String
  name : String
deriving DecidableEq

/-- Response body as read by the resume component renderer: only the
tailored resume text is ever accessed, and it may be absent. -/
structure ResumeResp where
  tailoredResume : Option String
deriving DecidableEq

/-- State of the ResumeComponent: every class field bound by the form,
plus isLoading / result / error. -/
structure ResumeState where
  selectedFile : Option FileInfo
  jobDescription : String
  targetRole : String
  experienceLevel : String
  skillsInput : String
  skillsToHighlight : List String
  tonePreference : String
  formatType : String
  additionalAchievements : String
  isLoading : Bool
  result : Option ResumeResp
  error : String
deriving DecidableEq

/-- Field initialisers of the ResumeComponent class. -/
def Resume.init : ResumeState :=
  { selectedFile := none, jobDescription := "", targetRole := ""
    experienceLevel := "Mid-Level", skillsInput := "", skillsToHighlight := []
    tonePreference := "Professional", formatType := "ATS-Friendly"
    additionalAchievements := ""
    isLoading := false, result := none, error := "" }

/-- The accepted MIME types of onFileSelected. -/
def Resume.validTypes : List String :=
  ["application/pdf",
   "application/vnd.openxmlformats-officedocument.wordprocessingml.document"]

/-- Model of String.prototype.endsWith. -/
def jsEndsWith (s suffix : String) : Bool :=
  suffix.data.isSuffixOf s.data

/-- onFileSelected: an event with no file changes nothing; a file with
an accepted MIME type or a .pdf or .docx name is committed and the
error cleared; any other file sets the error and leaves no file
selected. -/
def Resume.onFileSelected (st : ResumeState) (file : Option FileInfo) : ResumeState :=
  match file with
  | none => st
  | some f =>
    if Resume.validTypes.contains f.mimeType
        || jsEndsWith f.name (".pdf") || jsEndsWith f.name (".docx") then
      { st with selectedFile := some f, error := "" }
    else
      { st with error := "Please upload a PDF or DOCX file.", selectedFile := none }

/-- addSkill: if the buffer is non-blank, split it on commas, trim each
piece, drop empties, merge into the committed list through a Set (first
occurrence kept, duplicates collapsed) and clear the buffer. -/
def Resume.addSkill (st : ResumeState) : ResumeState :=
  if jsTrim st.skillsInput ≠ "" then
    let skills := ((jsSplit (fun c => c = ',') st.skillsInput).map jsTrim).filter (fun s => s ≠ "")
    { st with skillsToHighlight := jsSetDedup (st.skillsToHighlight ++ skills), skillsInput := "" }
  else st

/-- removeSkill: drop one committed skill by value. -/
def Resume.removeSkill (st : ResumeState) (skill : String) : ResumeState :=
  { st with skillsToHighlight := st.skillsToHighlight.filter (fun s => s ≠ skill) }

/-- The positional arguments the component hands to
ApiService.generateResume, with additionalAchievements already subject
to the value-or-undefined guard at the call site. -/
structure ResumeCall where
  file : FileInfo
  jobDescription : String
  targetRole : String
  experienceLevel : String
  skillsToHighlight : List String
  tonePreference : String
  formatType : String
  additionalAchievements : Option String
deriving DecidableEq

/-- generateResume up to the point the request is issued: the three
validation checks fire in order with their own messages; on pass the
call record handed to ApiService is returned. -/
def Resume.generateResume (st : ResumeState) : ResumeState × Option ResumeCall :=
  match st.selectedFile with
  | none => ({ st with error := "Please upload your resume (PDF or DOCX)." }, none)
  | some f =>
    if jsTrim st.jobDescription = "" then
      ({ st with error := "Please enter the job description." }, none)
    else if jsTrim st.targetRole = "" then
      ({ st with error := "Please enter the target role/job title." }, none)
    else
      ({ st with isLoading := true, error := "", result := none },
       some { file := f, jobDescription := st.jobDescription, targetRole := st.targetRole
              experienceLevel := st.experienceLevel, skillsToHighlight := st.skillsToHighlight
              tonePreference := st.tonePreference, formatType := st.formatType
              additionalAchievements :=
                if st.additionalAchievements = "" then none else some st.additionalAchievements })

/-- The subscribe callback of generateResume: the error branch uses the
backend detail when the error object carries a truthy one, else the
fixed fallback message. -/
def Resume.settle (st : ResumeState) (o : SubmitOutcome ResumeResp) : ResumeState :=
  match o with
  | SubmitOutcome.success r => { st with result := some r, isLoading := false }
  | SubmitOutcome.failure detail =>
    { st with
        error :=
          match detail with
          | some d => if d = "" then ("Failed to generate resume. Please try again.") else d
          | none => "Failed to generate resume. Please try again."
        isLoading := false }

/-- downloadResume: returns early unless result.tailored_resume is
truthy, otherwise renders that text. -/
def Resume.downloadResume (st : ResumeState) : RenderOutcome :=
  match st.result with
  | none => RenderOutcome.noop
  | some r =>
    match r.tailoredResume with
    | none => RenderOutcome.noop
    | some t => if t = "" then RenderOutcome.noop else RenderOutcome.rendered t

/-- One value of a multipart FormData entry: the binary file part or a
text part. -/
inductive PartVal where
  | filePart (f : FileInfo)
  | text (s : String)
deriving DecidableEq

/-- JSON string escaping as performed by JSON.stringify on the
characters that can occur here: backslash, double quote and common
control characters. -/
def jsonEscapeChar (c : Char) : List Char :=
  if c = '"' then ['\\', '"']
  else if c = '\\' then ['\\', '\\']
  else if c = '\n' then ['\\', 'n']
  else if c = '\t' then ['\\', 't']
  else if c = '\r' then ['\\', 'r']
  else [c]

/-- A JSON string literal for s. -/
def jsonQuote (s : String) : String :=
  String.mk ('"' :: s.data.foldr (fun c acc => jsonEscapeChar c ++ acc) ['"'])

/-- JSON.stringify of an array of strings, as used for the list-valued
multipart parts. -/
def jsonStringifyArr (xs : List String) : String :=
  "[" ++ String.intercalate (",") (xs.map jsonQuote) ++ "]"

/-- The FormData body assembled by ApiService.generateResume: a file
part, one text part per scalar field under its backend key, the skills
list JSON-encoded as a single text part, and the optional achievements
part appended only when truthy. -/
def ApiService.generateResumeBody (c : ResumeCall) : List (String × PartVal) :=
  [("file", PartVal.filePart c.file),
   ("job_description", PartVal.text c.jobDescription),
   ("target_role", PartVal.text c.targetRole),
   ("experience_level", PartVal.text c.experienceLevel),
   ("skills_to_highlight", PartVal.text (jsonStringifyArr c.skillsToHighlight)),
   ("tone_preference", PartVal.text c.tonePreference),
   ("format_type", PartVal.text c.formatType)]
  ++ (match c.additionalAchievements with
      | some a => if a = "" then [] else [("additional_achievements", PartVal.text a)]
      | none => [])

/-! ## DocumentComponent, first revision (document.component.ts:
fields documentType / topic / targetAudience / keyPoints, handlers
generateDocument and downloadDocument). -/

/-- One section of a document response; either field may be absent, in
which case template interpolation prints undefined. -/
structure Section where
  title : Option String
  content : Option String
deriving DecidableEq

/-- Response body as read by the document component renderer: only
sections is ever accessed, and it may be absent. -/
structure DocResp where
  sections : Option (List Section)
deriving DecidableEq

/-- State of the first-revision DocumentComponent. -/
structure DocV1State where
  documentType : String
  topic : String
  targetAudience : String
  keyPoints : String
  tone : String
  length : String
  isLoading : Bool
  result : Option DocResp
  error : String
deriving DecidableEq

/-- Field initialisers of the first-revision DocumentComponent. -/
def DocV1.init : DocV1State :=
  { documentType := "proposal", topic := "", targetAudience := "", keyPoints := ""
    tone := "professional", length := "medium"
    isLoading := false, result := none, error := "" }

/-- generateDocument of the first revision: validation requires topic
and keyPoints truthy (non-empty, untrimmed check); the payload
substitutes General Audience for an empty target audience and splits
keyPoints on newline with a truthiness filter. -/
def DocV1.generateDocument (st : DocV1State) : DocV1State × Option Payload :=
  if st.topic = "" ∨ st.keyPoints = "" then
    ({ st with error := "Please enter a topic and key points." }, none)
  else
    ({ st with isLoading := true, error := "", result := none },
     some [("document_type", JsonVal.str st.documentType),
           ("topic", JsonVal.str st.topic),
           ("target_audience",
            JsonVal.str (if st.targetAudience = "" then ("General Audience") else st.targetAudience)),
           ("key_points", JsonVal.arr (splitNewlineTruthy st.keyPoints)),
           ("tone", JsonVal.str st.tone),
           ("length", JsonVal.str st.length)])

/-- The subscribe callback of the first-revision generateDocument. -/
def DocV1.settle (st : DocV1State) (o : SubmitOutcome DocResp) : DocV1State :=
  match o with
  | SubmitOutcome.success r => { st with result := some r, isLoading := false }
  | SubmitOutcome.failure _ =>
    { st with error := "Failed to generate document. Please try again.", isLoading := false }

/-- Concatenation of section titles and bodies performed by
downloadDocument once result.sections exists. -/
def renderSections (title : String) (secs : List Section) : String :=
  secs.foldl
    (fun acc s => acc ++ jsDisplay s.title ++ "\n" ++ jsDisplay s.content ++ "\n\n")
    ("Title: " ++ title ++ "\n\n")

/-- downloadDocument of the first revision: returns early when result
is null, but dereferences result.sections.forEach without a guard, so a
non-null result with no sections field throws a TypeError. -/
def DocV1.downloadDocument (st : DocV1State) : RenderOutcome :=
  match st.result with
  | none => RenderOutcome.noop
  | some r =>
    match r.sections with
    | none => RenderOutcome.thrown
    | some secs => RenderOutcome.rendered (renderSections st.topic secs)

/-! ## DocumentComponent, enhanced revision (the third class in
social-media.component.ts: fields documentTitle / purpose /
keyPointsInput / keyPoints, handlers addKeyPoint, generateDocument and
downloadDocument). -/

/-- State of the enhanced DocumentComponent. -/
structure DocV2State where
  documentType : String
  documentTitle : String
  purpose : String
  targetAudience : String
  keyPointsInput : String
  keyPoints : List String
  toneStyle : String
  length : String
  formattingPreference : String
  attachmentsDescription : String
  context : String
  isLoading : Bool
  result : Option DocResp
  error : String
deriving DecidableEq

/-- Field initialisers of the enhanced DocumentComponent. -/
def DocV2.init : DocV2State :=
  { documentType := "proposal", documentTitle := "", purpose := "", targetAudience := ""
    keyPointsInput := "", keyPoints := []
    toneStyle := "Formal", length := "Medium", formattingPreference := "Corporate"
    attachmentsDescription := "", context := ""
    isLoading := false, result := none, error := "" }

/-- addKeyPoint of the enhanced DocumentComponent: push the trimmed
buffer as a single item and clear the buffer; no splitting, no
deduplication. -/
def DocV2.addKeyPoint (st : DocV2State) : DocV2State :=
  if jsTrim st.keyPointsInput ≠ "" then
    { st with keyPoints := st.keyPoints ++ [jsTrim st.keyPointsInput], keyPointsInput := "" }
  else st

/-- The data object built by the enhanced generateDocument, after JSON
serialisation.  target_audience is passed through without a guard, so
its key is always present, even for the empty string; only
attachments_description and context use the value-or-undefined
guard. -/
def DocV2.payload (st : DocV2State) : Payload :=
  [("document_type", JsonVal.str st.documentType),
   ("document_title", JsonVal.str st.documentTitle),
   ("purpose", JsonVal.str st.purpose),
   ("target_audience", JsonVal.str st.targetAudience),
   ("key_points", JsonVal.arr (parseCommaNewline st.keyPointsInput)),
   ("tone_style", JsonVal.str st.toneStyle),
   ("length", JsonVal.str st.length),
   ("formatting_preference", JsonVal.str st.formattingPreference)]
  ++ optStr ("attachments_description") st.attachmentsDescription
  ++ optStr ("context") st.context

/-- generateDocument of the enhanced revision: validation requires
documentTitle and purpose truthy and the raw keyPointsInput buffer
non-blank; the committed keyPoints list plays no role. -/
def DocV2.generateDocument (st : DocV2State) : DocV2State × Option Payload :=
  if st.documentTitle = "" ∨ st.purpose = "" ∨ jsTrim st.keyPointsInput = "" then
    ({ st with error := "Please fill in all required fields." }, none)
  else
    ({ st with isLoading := true, error := "", result := none }, some (DocV2.payload st))

/-- The subscribe callback of the enhanced generateDocument. -/
def DocV2.settle (st : DocV2State) (o : SubmitOutcome DocResp) : DocV2State :=
  match o with
  | SubmitOutcome.success r => { st with result := some r, isLoading := false }
  | SubmitOutcome.failure _ =>
    { st with error := "Failed to generate document. Please try again.", isLoading := false }

/-- downloadDocument of the enhanced revision: same unguarded
dereference of result.sections as the first revision. -/
def DocV2.downloadDocument (st : DocV2State) : RenderOutcome :=
  match st.result with
  | none => RenderOutcome.noop
  | some r =>
    match r.sections with
    | none => RenderOutcome.thrown
    | some secs => RenderOutcome.rendered (renderSections st.documentTitle secs)

/-! ## Form-field projections: the tuple of all user-editable field
values of a component state, used to state that a handler does not
mutate any form field. -/

/-- All form fields of the first-revision EmailComponent. -/
def EmailV1.formFields (st : EmailV1State) :=
  (st.emailType, st.recipient, st.subject, st.keyPoints, st.tone, st.length)

/-- All form fields of the enhanced EmailComponent. -/
def EmailV2.formFields (st : EmailV2State) :=
  (st.emailPurpose, st.recipientType, st.keyPointsInput, st.keyPoints, st.toneStyle,
   st.urgencyLevel, st.callToAction, st.signatureDetails, st.subjectLinePreference, st.context)

/-- All form fields of the ResumeComponent. -/
def Resume.formFields (st : ResumeState) :=
  (st.selectedFile, st.jobDescription, st.targetRole, st.experienceLevel, st.skillsInput,
   st.skillsToHighlight, st.tonePreference, st.formatType, st.additionalAchievements)

/-- All form fields of the first-revision DocumentComponent. -/
def DocV1.formFields (st : DocV1State) :=
  (st.documentType, st.topic, st.targetAudience, st.keyPoints, st.tone, st.length)

/-- All form fields of the enhanced DocumentComponent. -/
def DocV2.formFields (st : DocV2State) :=
  (st.documentType, st.documentTitle, st.purpose, st.targetAudience, st.keyPointsInput,
   st.keyPoints, st.toneStyle, st.length, st.formattingPreference, st.attachmentsDescription,
   st.context)

/-- The document-feature scenario input of the specification: title,
purpose and raw key points set, every optional field left at its
initialiser. -/
def docScenario : DocV2State :=
  { DocV2.init with
      documentTitle := "Q1 Plan", purpose := "align teams"
      keyPointsInput := "grow revenue, cut costs" }

/-! ## Helper lemmas shared between claim theorems. -/

theorem mem_jsSetDedupAux {x : String} :
    ∀ {l seen : List String}, x ∈ jsSetDedupAux seen l → x ∈ l ∧ x ∉ seen := by
  intro l
  induction l with
  | nil => intro seen h; simp [jsSetDedupAux] at h
  | cons y ys ih =>
    intro seen h
    by_cases hy : seen.contains y
    · rw [jsSetDedupAux, if_pos hy] at h
      obtain ⟨h1, h2⟩ := ih h
      exact ⟨List.mem_cons_of_mem _ h1, h2⟩
    · rw [jsSetDedupAux, if_neg hy] at h
      rcases List.mem_cons.mp h with rfl | h
      · refine ⟨List.mem_cons_self _ _, fun hx => hy ?_⟩
        exact List.elem_iff.mpr hx
      · obtain ⟨h1, h2⟩ := ih h
        refine ⟨List.mem_cons_of_mem _ h1, fun hx => h2 ?_⟩
        exact List.mem_append_left _ hx

theorem jsSetDedupAux_nodup : ∀ (l seen : List String), (jsSetDedupAux seen l).Nodup := by
  intro l
  induction l with
  | nil => intro seen; simp [jsSetDedupAux]
  | cons y ys ih =>
    intro seen
    by_cases hy : seen.contains y
    · rw [jsSetDedupAux, if_pos hy]; exact ih _
    · rw [jsSetDedupAux, if_neg hy]
      refine List.nodup_cons.mpr ⟨fun hmem => ?_, ih _⟩
      obtain ⟨_, h2⟩ := mem_jsSetDedupAux hmem
      exact h2 (List.mem_append_right _ (List.mem_singleton.mpr rfl))

/-- The Set-based merge of addSkill never produces duplicates. -/
theorem jsSetDedup_nodup (l : List String) : (jsSetDedup l).Nodup :=
  jsSetDedupAux_nodup l []

/-- A first-revision email state with both required fields filled. -/
def emailV1Filled : EmailV1State :=
  { EmailV1.init with subject := "s", keyPoints := "k" }

/-- An enhanced email state with the required fields filled and the raw
key-points block of the specification scenario. -/
def emailV2Filled : EmailV2State :=
  { EmailV2.init with
      emailPurpose := "p", recipientType := "hiring_manager"
      keyPointsInput := "a, b,,\nc" }

/-- A resume state with a valid file and the required text fields
filled. -/
def resumeFilled : ResumeState :=
  { Resume.init with
      selectedFile := some { mimeType := "application/pdf", name := "cv.pdf" }
      jobDescription := "jd", targetRole := "engineer" }

/-- C3, counterexample: the first-revision DocumentComponent also
derives its key-points list at submit time from a raw text block, but
it splits on newline only and does not trim the pieces, so the raw
input a comma b double-comma newline c derives the two-element list and
not the three-element list the claim requires. -/
theorem c3_counterexample :
    (DocV1.generateDocument { DocV1.init with topic := "t", keyPoints := "a, b,,\nc" }).2.map
        (fun p => p.lookup ("key_points"))
      = some (some (JsonVal.arr ["a, b,,", "c"]))
    ∧ (DocV1.generateDocument { DocV1.init with topic := "t", keyPoints := "a, b,,\nc" }).2.map
        (fun p => p.lookup ("key_points"))
      ≠ some (some (JsonVal.arr ["a", "b", "c"])) := by
  constructor <;> decide

/-- C3 (amended): the enhanced components (email and document) split
the raw block on comma or newline, trim each piece and drop empties in
order, so the scenario input derives exactly a, b, c; the legacy
components split on newline only with a truthiness filter and keep
pieces untrimmed, so the same input derives the list a-comma-b-commas
and c. -/
theorem c3_bulk_parse_amended :
    parseCommaNewline ("a, b,,\nc") = ["a", "b", "c"]
    ∧ (EmailV2.payload emailV2Filled).lookup ("key_points") = some (JsonVal.arr ["a", "b", "c"])
    ∧ (DocV2.payload { DocV2.init with
          documentTitle := "T", purpose := "P", keyPointsInput := "a, b,,\nc" }).lookup
        ("key_points") = some (JsonVal.arr ["a", "b", "c"])
    ∧ splitNewlineTruthy ("a, b,,\nc") = ["a, b,,", "c"] := by
  refine ⟨by decide, by decide, by decide, by decide⟩

/-- C4, counterexample: the addKeyPoint action of the enhanced
EmailComponent appends the whole trimmed buffer as one item, without
splitting on commas and without deduplication, so appending the buffer
x comma x comma y to an empty committed list yields a one-element list,
not the two-element list the claim requires. -/
theorem c4_counterexample :
    (EmailV2.addKeyPoint { EmailV2.init with keyPointsInput := "x, x, y" }).keyPoints = ["x, x, y"]
    ∧ (EmailV2.addKeyPoint { EmailV2.init with keyPointsInput := "x, x, y" }).keyPoints
        ≠ ["x", "y"] := by
  constructor <;> decide

/-- C4 (amended): the addSkill action of the ResumeComponent behaves as
the claim states: it splits the buffer on commas, trims, drops empties,
merges with set semantics and clears the buffer, so appending x comma x
comma y to an empty committed list yields exactly x then y, and a
subsequent append of x alone leaves the list unchanged; the Set-based
merge never produces duplicates.  The addKeyPoint actions of the
enhanced email and document components instead either leave the list
unchanged (blank buffer) or append the whole trimmed buffer as a single
item. -/
theorem c4_incremental_append_amended :
    (Resume.addSkill { Resume.init with skillsInput := "x, x, y" }).skillsToHighlight = ["x", "y"]
    ∧ (Resume.addSkill { Resume.init with skillsInput := "x, x, y" }).skillsInput = ""
    ∧ (Resume.addSkill { Resume.init with
          skillsInput := "x", skillsToHighlight := ["x", "y"] }).skillsToHighlight = ["x", "y"]
    ∧ (Resume.addSkill { Resume.init with
          skillsInput := "x", skillsToHighlight := ["x", "y"] }).skillsInput = ""
    ∧ (∀ l : List String, (jsSetDedup l).Nodup)
    ∧ (∀ st : EmailV2State,
        (EmailV2.addKeyPoint st).keyPoints = st.keyPoints
        ∨ (EmailV2.addKeyPoint st).keyPoints = st.keyPoints ++ [jsTrim st.keyPointsInput])
    ∧ (∀ st : DocV2State,
        (DocV2.addKeyPoint st).keyPoints = st.keyPoints
        ∨ (DocV2.addKeyPoint st).keyPoints = st.keyPoints ++ [jsTrim st.keyPointsInput]) := by
  refine ⟨by decide, by decide, by decide, by decide, jsSetDedup_nodup, ?_, ?_⟩
  · intro st
    by_cases h : jsTrim st.keyPointsInput = ""
    · left; simp [EmailV2.addKeyPoint, h]
    · right; simp [EmailV2.addKeyPoint, h]
  · intro st
    by_cases h : jsTrim st.keyPointsInput = ""
    · left; simp [DocV2.addKeyPoint, h]
    · right; simp [DocV2.addKeyPoint, h]

/-- C6, counterexample: at exactly the scenario input of the claim, the
submitted document payload does contain a target_audience key, bound to
the empty string, although the claim requires that no target_audience
key be present. -/
theorem c6_counterexample :
    (DocV2.generateDocument docScenario).2.map (fun p => p.lookup ("target_audience"))
      = some (some (JsonVal.str (""))) := by decide

/-- C6 (amended): for the scenario input the submitted payload equals
the claimed object extended with a target_audience key bound to the
empty string: document_type defaults to proposal, the three given
fields pass through, key_points derives the two parsed items, the three
default-valued options are sent, and no attachments_description or
context key is present. -/
theorem c6_document_scenario_amended :
    (DocV2.generateDocument docScenario).2 =
      some [("document_type", JsonVal.str ("proposal")),
            ("document_title", JsonVal.str ("Q1 Plan")),
            ("purpose", JsonVal.str ("align teams")),
            ("target_audience", JsonVal.str ("")),
            ("key_points", JsonVal.arr ["grow revenue", "cut costs"]),
            ("tone_style", JsonVal.str ("Formal")),
            ("length", JsonVal.str ("Medium")),
            ("formatting_preference", JsonVal.str ("Corporate"))]
    ∧ (DocV2.payload docScenario).lookup ("attachments_description") = none
    ∧ (DocV2.payload docScenario).lookup ("context") = none := by
  refine ⟨by decide, by decide, by decide⟩

/-- C8, counterexample: an enhanced email submission whose committed
key-points list is non-empty but whose raw buffer is empty is rejected
by the validation gate, although the claim requires that it never be
rejected for that field. -/
theorem c8_counterexample :
    (EmailV2.generateEmail { EmailV2.init with
        emailPurpose := "p", recipientType := "hiring_manager", keyPoints := ["x"] }).2 = none
    ∧ ({ EmailV2.init with
        emailPurpose := "p", recipientType := "hiring_manager",
        keyPoints := ["x"] } : EmailV2State).keyPoints ≠ [] := by
  constructor <;> decide

/-- C8 (amended): in the enhanced email and document components the
validation gate counts the key-points field as present exactly when the
raw input buffer is non-blank; the committed list plays no role in the
decision, so a submission whose only key points are committed list
entries is rejected. -/
theorem c8_validation_buffer_amended :
    (∀ st : EmailV2State,
      (EmailV2.generateEmail st).2.isSome = true
        ↔ (st.emailPurpose ≠ "" ∧ st.recipientType ≠ "" ∧ jsTrim st.keyPointsInput ≠ ""))
    ∧ (∀ st : DocV2State,
      (DocV2.generateDocument st).2.isSome = true
        ↔ (st.documentTitle ≠ "" ∧ st.purpose ≠ "" ∧ jsTrim st.keyPointsInput ≠ "")) := by
  constructor
  · intro st
    by_cases h : st.emailPurpose = "" ∨ st.recipientType = "" ∨ jsTrim st.keyPointsInput = ""
    · simp only [EmailV2.generateEmail, if_pos h, Option.isSome_none]
      constructor
      · intro hfalse; cases hfalse
      · intro hc; exact absurd h (by push_neg; exact hc)
    · simp only [EmailV2.generateEmail, if_neg h, Option.isSome_some]
      push_neg at h
      exact ⟨fun _ => h, fun _ => trivial⟩
  · intro st
    by_cases h : st.documentTitle = "" ∨ st.purpose = "" ∨ jsTrim st.keyPointsInput = ""
    · simp only [DocV2.generateDocument, if_pos h, Option.isSome_none]
      constructor
      · intro hfalse; cases hfalse
      · intro hc; exact absurd h (by push_neg; exact hc)
    · simp only [DocV2.generateDocument, if_neg h, Option.isSome_some]
      push_neg at h
      exact ⟨fun _ => h, fun _ => trivial⟩

/-- C9, counterexample: the downloadDocument action of the
first-revision DocumentComponent dereferences result.sections without a
guard, so on a successful response that lacks the sections field it
throws instead of degrading, although the claim requires that render
actions never fail on a missing expected field. -/
theorem c9_counterexample :
    DocV1.downloadDocument { DocV1.init with result := some { sections := none } }
      = RenderOutcome.thrown := by decide

/-- C9 (amended): the copy-to-clipboard action of the email component
and the download action of the resume component degrade to a no-op when
the expected display field is missing or empty, and every download
action is a no-op on a null result; but the download actions of both
document components throw on a non-null result that lacks the sections
field. -/
theorem c9_render_actions_amended :
    (∀ st : EmailV2State,
      EmailV2.copyToClipboard { st with result := some { email := none } } = RenderOutcome.noop)
    ∧ (∀ st : EmailV2State,
      EmailV2.copyToClipboard { st with result := some { email := some ("") } }
        = RenderOutcome.noop)
    ∧ (∀ st : ResumeState,
      Resume.downloadResume { st with result := some { tailoredResume := none } }
        = RenderOutcome.noop)
    ∧ (∀ st : ResumeState, Resume.downloadResume { st with result := none } = RenderOutcome.noop)
    ∧ (∀ st : DocV1State, DocV1.downloadDocument { st with result := none } = RenderOutcome.noop)
    ∧ (∀ st : DocV1State,
      DocV1.downloadDocument { st with result := some { sections := none } }
        = RenderOutcome.thrown)
    ∧ (∀ st : DocV2State,
      DocV2.downloadDocument { st with result := some { sections := none } }
        = RenderOutcome.thrown) := by
  refine ⟨fun st => ?_, fun st => ?_, fun st => rfl, fun st => rfl, fun st => rfl,
    fun st => rfl, fun st => rfl⟩
  · rfl
  · simp [EmailV2.copyToClipboard]

/-- C10: onFileSelected of the ResumeComponent commits the file and
clears the error exactly when the MIME type is the PDF or DOCX type or
the file name ends in .pdf or .docx; otherwise it sets the fixed error
message and leaves no file selected; an event carrying no file changes
nothing. -/
theorem c10_onFileSelected :
    ∀ (st : ResumeState) (f : FileInfo),
      Resume.onFileSelected st none = st
      ∧ Resume.onFileSelected st (some f) =
          (if f.mimeType = "application/pdf"
              ∨ f.mimeType =
                  "application/vnd.openxmlformats-officedocument.wordprocessingml.document"
              ∨ jsEndsWith f.name (".pdf") = true ∨ jsEndsWith f.name (".docx") = true then
            { st with selectedFile := some f, error := "" }
          else
            { st with error := "Please upload a PDF or DOCX file.", selectedFile := none }) := by
  intro st f
  refine ⟨rfl, ?_⟩
  have hiff :
      (Resume.validTypes.contains f.mimeType || jsEndsWith f.name (".pdf")
          || jsEndsWith f.name (".docx")) = true
        ↔ (f.mimeType = "application/pdf"
           ∨ f.mimeType =
               "application/vnd.openxmlformats-officedocument.wordprocessingml.document"
           ∨ jsEndsWith f.name (".pdf") = true ∨ jsEndsWith f.name (".docx") = true) := by
    simp [Resume.validTypes, List.contains, List.elem_iff, or_assoc]
  by_cases h : f.mimeType = "application/pdf"
      ∨ f.mimeType = "application/vnd.openxmlformats-officedocument.wordprocessingml.document"
      ∨ jsEndsWith f.name (".pdf") = true ∨ jsEndsWith f.name (".docx") = true
  · rw [if_pos h]
    have hb := hiff.mpr h
    simp only [Resume.onFileSelected, hb, if_true]
  · rw [if_neg h]
    have hb : (Resume.validTypes.contains f.mimeType || jsEndsWith f.name (".pdf")
        || jsEndsWith f.name (".docx")) = false := by
      cases hcase : (Resume.validTypes.contains f.mimeType || jsEndsWith f.name (".pdf")
        || jsEndsWith f.name (".docx")) with
      | false => rfl
      | true => exact absurd (hiff.mp hcase) h
    simp only [Resume.onFileSelected, hb, Bool.false_eq_true, if_false]

/-- C7: the body assembled by ApiService.generateResume is multipart
form data with a file part under the key file, every other field a text
part under its backend key, the skills list serialized as one
JSON-encoded string part, and the optional achievements part appended
exactly when a non-empty value was passed. -/
theorem c7_multipart_body :
    ∀ (c : ResumeCall),
      (ApiService.generateResumeBody c).lookup ("file") = some (PartVal.filePart c.file)
      ∧ (ApiService.generateResumeBody c).lookup ("job_description")
          = some (PartVal.text c.jobDescription)
      ∧ (ApiService.generateResumeBody c).lookup ("target_role")
          = some (PartVal.text c.targetRole)
      ∧ (ApiService.generateResumeBody c).lookup ("experience_level")
          = some (PartVal.text c.experienceLevel)
      ∧ (ApiService.generateResumeBody c).lookup ("skills_to_highlight")
          = some (PartVal.text (jsonStringifyArr c.skillsToHighlight))
      ∧ (ApiService.generateResumeBody c).lookup ("tone_preference")
          = some (PartVal.text c.tonePreference)
      ∧ (ApiService.generateResumeBody c).lookup ("format_type")
          = some (PartVal.text c.formatType)
      ∧ (ApiService.generateResumeBody c).lookup ("additional_achievements")
          = (match c.additionalAchievements with
             | some a => if a = "" then none else some (PartVal.text a)
             | none => none)
      ∧ ((ApiService.generateResumeBody c).filter (fun kv => kv.1 ≠ "file")).all
          (fun kv => match kv.2 with
                     | PartVal.text _ => true
                     | PartVal.filePart _ => false) = true := by
  intro c
  obtain ⟨f, jd, tr, el, sk, tp, ft, aa⟩ := c
  cases aa with
  | none =>
    refine ⟨rfl, rfl, rfl, rfl, rfl, rfl, rfl, ?_, ?_⟩ <;>
      simp [ApiService.generateResumeBody, List.lookup]
  | some a =>
    by_cases ha : a = ""
    · subst ha
      refine ⟨rfl, rfl, rfl, rfl, rfl, rfl, rfl, ?_, ?_⟩ <;>
        simp [ApiService.generateResumeBody, List.lookup]
    · refine ⟨?_, ?_, ?_, ?_, ?_, ?_, ?_, ?_, ?_⟩ <;>
        simp [ApiService.generateResumeBody, List.lookup, ha]

/-- C1: in every embedded feature component all three of isLoading,
error and result are clear in the initial state, and whenever a
submission that was actually issued settles (the subscribe callback
fires with success or error), afterwards isLoading is false and exactly
one of result-set or error-non-empty holds. -/
theorem c1_settle_invariant :
    (EmailV1.init.isLoading = false ∧ EmailV1.init.error = "" ∧ EmailV1.init.result = none)
    ∧ (EmailV2.init.isLoading = false ∧ EmailV2.init.error = "" ∧ EmailV2.init.result = none)
    ∧ (Resume.init.isLoading = false ∧ Resume.init.error = "" ∧ Resume.init.result = none)
    ∧ (DocV1.init.isLoading = false ∧ DocV1.init.error = "" ∧ DocV1.init.result = none)
    ∧ (DocV2.init.isLoading = false ∧ DocV2.init.error = "" ∧ DocV2.init.result = none)
    ∧ (∀ (st st' : EmailV1State) (p : Payload) (o : SubmitOutcome EmailResp),
        EmailV1.generateEmail st = (st', some p) →
          (EmailV1.settle st' o).isLoading = false
          ∧ (((EmailV1.settle st' o).result.isSome = true ∧ (EmailV1.settle st' o).error = "")
             ∨ ((EmailV1.settle st' o).result = none ∧ (EmailV1.settle st' o).error ≠ "")))
    ∧ (∀ (st st' : EmailV2State) (p : Payload) (o : SubmitOutcome EmailResp),
        EmailV2.generateEmail st = (st', some p) →
          (EmailV2.settle st' o).isLoading = false
          ∧ (((EmailV2.settle st' o).result.isSome = true ∧ (EmailV2.settle st' o).error = "")
             ∨ ((EmailV2.settle st' o).result = none ∧ (EmailV2.settle st' o).error ≠ "")))
    ∧ (∀ (st st' : ResumeState) (c : ResumeCall) (o : SubmitOutcome ResumeResp),
        Resume.generateResume st = (st', some c) →
          (Resume.settle st' o).isLoading = false
          ∧ (((Resume.settle st' o).result.isSome = true ∧ (Resume.settle st' o).error = "")
             ∨ ((Resume.settle st' o).result = none ∧ (Resume.settle st' o).error ≠ "")))
    ∧ (∀ (st st' : DocV1State) (p : Payload) (o : SubmitOutcome DocResp),
        DocV1.generateDocument st = (st', some p) →
          (DocV1.settle st' o).isLoading = false
          ∧ (((DocV1.settle st' o).result.isSome = true ∧ (DocV1.settle st' o).error = "")
             ∨ ((DocV1.settle st' o).result = none ∧ (DocV1.settle st' o).error ≠ "")))
    ∧ (∀ (st st' : DocV2State) (p : Payload) (o : SubmitOutcome DocResp),
        DocV2.generateDocument st = (st', some p) →
          (DocV2.settle st' o).isLoading = false
          ∧ (((DocV2.settle st' o).result.isSome = true ∧ (DocV2.settle st' o).error = "")
             ∨ ((DocV2.settle st' o).result = none ∧ (DocV2.settle st' o).error ≠ ""))) := by
  refine ⟨⟨rfl, rfl, rfl⟩, ⟨rfl, rfl, rfl⟩, ⟨rfl, rfl, rfl⟩, ⟨rfl, rfl, rfl⟩, ⟨rfl, rfl, rfl⟩,
    ?_, ?_, ?_, ?_, ?_⟩
  · intro st st' p o h
    by_cases hv : jsTrim st.subject = "" ∨ jsTrim st.keyPoints = ""
    · simp [EmailV1.generateEmail, hv] at h
    · simp only [EmailV1.generateEmail, if_neg hv, Prod.mk.injEq] at h
      obtain ⟨hA, -⟩ := h
      subst hA
      cases o with
      | success r => exact ⟨rfl, Or.inl ⟨rfl, rfl⟩⟩
      | failure d => exact ⟨rfl, Or.inr ⟨rfl, by simp [EmailV1.settle]⟩⟩
  · intro st st' p o h
    by_cases hv : st.emailPurpose = "" ∨ st.recipientType = "" ∨ jsTrim st.keyPointsInput = ""
    · simp [EmailV2.generateEmail, hv] at h
    · simp only [EmailV2.generateEmail, if_neg hv, Prod.mk.injEq] at h
      obtain ⟨hA, -⟩ := h
      subst hA
      cases o with
      | success r => exact ⟨rfl, Or.inl ⟨rfl, rfl⟩⟩
      | failure d => exact ⟨rfl, Or.inr ⟨rfl, by simp [EmailV2.settle]⟩⟩
  · intro st st' c o h
    cases hsf : st.selectedFile with
    | none => simp [Resume.generateResume, hsf] at h
    | some f =>
      by_cases h1 : jsTrim st.jobDescription = ""
      · simp [Resume.generateResume, hsf, h1] at h
      · by_cases h2 : jsTrim st.targetRole = ""
        · simp [Resume.generateResume, hsf, h1, h2] at h
        · simp only [Resume.generateResume, hsf, if_neg h1, if_neg h2, Prod.mk.injEq] at h
          obtain ⟨hA, -⟩ := h
          subst hA
          cases o with
          | success r => exact ⟨rfl, Or.inl ⟨rfl, rfl⟩⟩
          | failure d =>
            refine ⟨rfl, Or.inr ⟨rfl, ?_⟩⟩
            cases d with
            | none => simp [Resume.settle]
            | some dd =>
              by_cases hdd : dd = ""
              · simp [Resume.settle, hdd]
              · simp [Resume.settle, hdd]
  · intro st st' p o h
    by_cases hv : st.topic = "" ∨ st.keyPoints = ""
    · simp [DocV1.generateDocument, hv] at h
    · simp only [DocV1.generateDocument, if_neg hv, Prod.mk.injEq] at h
      obtain ⟨hA, -⟩ := h
      subst hA
      cases o with
      | success r => exact ⟨rfl, Or.inl ⟨rfl, rfl⟩⟩
      | failure d => exact ⟨rfl, Or.inr ⟨rfl, by simp [DocV1.settle]⟩⟩
  · intro st st' p o h
    by_cases hv : st.documentTitle = "" ∨ st.purpose = "" ∨ jsTrim st.keyPointsInput = ""
    · simp [DocV2.generateDocument, hv] at h
    · simp only [DocV2.generateDocument, if_neg hv, Prod.mk.injEq] at h
      obtain ⟨hA, -⟩ := h
      subst hA
      cases o with
      | success r => exact ⟨rfl, Or.inl ⟨rfl, rfl⟩⟩
      | failure d => exact ⟨rfl, Or.inr ⟨rfl, by simp [DocV2.settle]⟩⟩

/-- C1 witness: a concrete first-revision email submission that passes
validation and settles with a network failure satisfies the settle
invariant. -/
theorem c1_settle_invariant_witness :
    (EmailV1.settle { emailV1Filled with isLoading := true, error := "", result := none }
        (SubmitOutcome.failure none)).isLoading = false
    ∧ (((EmailV1.settle { emailV1Filled with isLoading := true, error := "", result := none }
            (SubmitOutcome.failure none)).result.isSome = true
        ∧ (EmailV1.settle { emailV1Filled with isLoading := true, error := "", result := none }
            (SubmitOutcome.failure none)).error = "")
       ∨ ((EmailV1.settle { emailV1Filled with isLoading := true, error := "", result := none }
            (SubmitOutcome.failure none)).result = none
          ∧ (EmailV1.settle { emailV1Filled with isLoading := true, error := "", result := none }
              (SubmitOutcome.failure none)).error ≠ "")) :=
  c1_settle_invariant.2.2.2.2.2.1 emailV1Filled
    { emailV1Filled with isLoading := true, error := "", result := none }
    [("email_type", JsonVal.str ("professional")),
     ("recipient", JsonVal.str ("")),
     ("subject", JsonVal.str ("s")),
     ("key_points", JsonVal.arr ["k"]),
     ("tone", JsonVal.str ("professional")),
     ("length", JsonVal.str ("medium"))]
    (SubmitOutcome.failure none)
    (by decide)

/-- C2: in every embedded feature component, a submit invoked while a
required field is missing sets the error message, issues no transport
call, and leaves every form field value unchanged. -/
theorem c2_validation_blocks :
    (∀ st : EmailV1State, (jsTrim st.subject = "" ∨ jsTrim st.keyPoints = "") →
        (EmailV1.generateEmail st).2 = none
        ∧ EmailV1.formFields (EmailV1.generateEmail st).1 = EmailV1.formFields st
        ∧ (EmailV1.generateEmail st).1.error ≠ "")
    ∧ (∀ st : EmailV2State,
        (st.emailPurpose = "" ∨ st.recipientType = "" ∨ jsTrim st.keyPointsInput = "") →
          (EmailV2.generateEmail st).2 = none
          ∧ EmailV2.formFields (EmailV2.generateEmail st).1 = EmailV2.formFields st
          ∧ (EmailV2.generateEmail st).1.error ≠ "")
    ∧ (∀ st : ResumeState,
        (st.selectedFile = none ∨ jsTrim st.jobDescription = "" ∨ jsTrim st.targetRole = "") →
          (Resume.generateResume st).2 = none
          ∧ Resume.formFields (Resume.generateResume st).1 = Resume.formFields st
          ∧ (Resume.generateResume st).1.error ≠ "")
    ∧ (∀ st : DocV1State, (st.topic = "" ∨ st.keyPoints = "") →
        (DocV1.generateDocument st).2 = none
        ∧ DocV1.formFields (DocV1.generateDocument st).1 = DocV1.formFields st
        ∧ (DocV1.generateDocument st).1.error ≠ "")
    ∧ (∀ st : DocV2State,
        (st.documentTitle = "" ∨ st.purpose = "" ∨ jsTrim st.keyPointsInput = "") →
          (DocV2.generateDocument st).2 = none
          ∧ DocV2.formFields (DocV2.generateDocument st).1 = DocV2.formFields st
          ∧ (DocV2.generateDocument st).1.error ≠ "") := by
  refine ⟨?_, ?_, ?_, ?_, ?_⟩
  · intro st h
    refine ⟨?_, ?_, ?_⟩ <;> simp [EmailV1.generateEmail, h, EmailV1.formFields]
  · intro st h
    refine ⟨?_, ?_, ?_⟩ <;> simp [EmailV2.generateEmail, h, EmailV2.formFields]
  · intro st h
    cases hsf : st.selectedFile with
    | none =>
      refine ⟨?_, ?_, ?_⟩ <;> simp [Resume.generateResume, hsf, Resume.formFields]
    | some f =>
      rcases h with h | h | h
      · rw [hsf] at h; exact Option.noConfusion h
      · refine ⟨?_, ?_, ?_⟩ <;> simp [Resume.generateResume, hsf, h, Resume.formFields]
      · by_cases h1 : jsTrim st.jobDescription = ""
        · refine ⟨?_, ?_, ?_⟩ <;> simp [Resume.generateResume, hsf, h1, Resume.formFields]
        · refine ⟨?_, ?_, ?_⟩ <;> simp [Resume.generateResume, hsf, h1, h, Resume.formFields]
  · intro st h
    refine ⟨?_, ?_, ?_⟩ <;> simp [DocV1.generateDocument, h, DocV1.formFields]
  · intro st h
    refine ⟨?_, ?_, ?_⟩ <;> simp [DocV2.generateDocument, h, DocV2.formFields]

/-- C2 witness: submitting the pristine first-revision email form,
whose required subject is blank, is blocked: no request is issued, the
form fields are untouched and the error message is set. -/
theorem c2_validation_blocks_witness :
    (EmailV1.generateEmail EmailV1.init).2 = none
    ∧ EmailV1.formFields (EmailV1.generateEmail EmailV1.init).1 = EmailV1.formFields EmailV1.init
    ∧ (EmailV1.generateEmail EmailV1.init).1.error ≠ "" :=
  c2_validation_blocks.1 EmailV1.init (Or.inl (by decide))

/-- C5, counterexample: in the enhanced document feature, the scenario
state has the optional target audience empty, yet the submitted payload
carries a target_audience key bound to the empty string; and a state
whose raw key-points block is a lone comma passes validation yet
submits an empty key_points list, so a required list field is present
but empty. -/
theorem c5_counterexample :
    docScenario.targetAudience = ""
    ∧ (DocV2.generateDocument docScenario).2.map (fun p => p.lookup ("target_audience"))
        = some (some (JsonVal.str ("")))
    ∧ (DocV2.generateDocument { DocV2.init with
          documentTitle := "T", purpose := "P", keyPointsInput := "," }).2.map
        (fun p => p.lookup ("key_points"))
        = some (some (JsonVal.arr [])) := by
  refine ⟨by decide, by decide, by decide⟩

/-- C5 (amended): once validation has passed, the optional fields
guarded with the value-or-undefined idiom (attachments_description and
context in the enhanced document feature; call_to_action,
signature_details, subject_line_preference and context in the enhanced
email feature) are omitted from the payload exactly when empty; but the
enhanced document feature always sends its target_audience key, even
for the empty value, the legacy document feature substitutes the
General Audience default for an empty target audience, and the
default-valued option fields are always sent.  Required scalar fields
are always present with non-empty values; required list fields are
always present but may be empty. -/
theorem c5_optional_keys_amended :
    (∀ (st st' : DocV2State) (p : Payload),
      DocV2.generateDocument st = (st', some p) →
        p.lookup ("attachments_description")
            = (if st.attachmentsDescription = "" then none
               else some (JsonVal.str st.attachmentsDescription))
        ∧ p.lookup ("context")
            = (if st.context = "" then none else some (JsonVal.str st.context))
        ∧ p.lookup ("target_audience") = some (JsonVal.str st.targetAudience)
        ∧ p.lookup ("tone_style") = some (JsonVal.str st.toneStyle)
        ∧ p.lookup ("document_title") = some (JsonVal.str st.documentTitle)
        ∧ st.documentTitle ≠ ""
        ∧ p.lookup ("purpose") = some (JsonVal.str st.purpose)
        ∧ st.purpose ≠ ""
        ∧ p.lookup ("key_points") = some (JsonVal.arr (parseCommaNewline st.keyPointsInput)))
    ∧ (∀ (st st' : EmailV2State) (p : Payload),
      EmailV2.generateEmail st = (st', some p) →
        p.lookup ("call_to_action")
            = (if st.callToAction = "" then none else some (JsonVal.str st.callToAction))
        ∧ p.lookup ("signature_details")
            = (if st.signatureDetails = "" then none else some (JsonVal.str st.signatureDetails))
        ∧ p.lookup ("subject_line_preference")
            = (if st.subjectLinePreference = "" then none
               else some (JsonVal.str st.subjectLinePreference))
        ∧ p.lookup ("context")
            = (if st.context = "" then none else some (JsonVal.str st.context))
        ∧ p.lookup ("email_purpose") = some (JsonVal.str st.emailPurpose)
        ∧ st.emailPurpose ≠ ""
        ∧ p.lookup ("recipient_type") = some (JsonVal.str st.recipientType)
        ∧ st.recipientType ≠ "")
    ∧ (∀ (st st' : DocV1State) (p : Payload),
      DocV1.generateDocument st = (st', some p) →
        p.lookup ("target_audience")
          = some (JsonVal.str
              (if st.targetAudience = "" then ("General Audience") else st.targetAudience))) := by
  refine ⟨?_, ?_, ?_⟩
  · intro st st' p h
    by_cases hv : st.documentTitle = "" ∨ st.purpose = "" ∨ jsTrim st.keyPointsInput = ""
    · simp [DocV2.generateDocument, hv] at h
    · simp only [DocV2.generateDocument, if_neg hv, Prod.mk.injEq, Option.some.injEq] at h
      obtain ⟨-, hp⟩ := h
      subst hp
      push_neg at hv
      obtain ⟨h1, h2, -⟩ := hv
      refine ⟨?_, ?_, ?_, ?_, ?_, h1, ?_, h2, ?_⟩ <;>
        by_cases ha : st.attachmentsDescription = "" <;>
        by_cases hc : st.context = "" <;>
        simp [DocV2.payload, optStr, List.lookup, ha, hc]
  · intro st st' p h
    by_cases hv : st.emailPurpose = "" ∨ st.recipientType = "" ∨ jsTrim st.keyPointsInput = ""
    · simp [EmailV2.generateEmail, hv] at h
    · simp only [EmailV2.generateEmail, if_neg hv, Prod.mk.injEq, Option.some.injEq] at h
      obtain ⟨-, hp⟩ := h
      subst hp
      push_neg at hv
      obtain ⟨h1, h2, -⟩ := hv
      refine ⟨?_, ?_, ?_, ?_, ?_, h1, ?_, h2⟩ <;>
        by_cases hca : st.callToAction = "" <;>
        by_cases hsd : st.signatureDetails = "" <;>
        by_cases hsl : st.subjectLinePreference = "" <;>
        by_cases hc : st.context = "" <;>
        simp [EmailV2.payload, optStr, List.lookup, hca, hsd, hsl, hc]
  · intro st st' p h
    by_cases hv : st.topic = "" ∨ st.keyPoints = ""
    · simp [DocV1.generateDocument, hv] at h
    · simp only [DocV1.generateDocument, if_neg hv, Prod.mk.injEq, Option.some.injEq] at h
      obtain ⟨-, hp⟩ := h
      subst hp
      simp [List.lookup]

/-- C5 witness: the amended key rules hold of the concrete scenario
submission of the document feature. -/
theorem c5_optional_keys_amended_witness :
    ((DocV2.generateDocument docScenario).2.getD []).lookup ("attachments_description")
        = (if docScenario.attachmentsDescription = "" then none
           else some (JsonVal.str docScenario.attachmentsDescription))
    ∧ ((DocV2.generateDocument docScenario).2.getD []).lookup ("context")
        = (if docScenario.context = "" then none else some (JsonVal.str docScenario.context))
    ∧ ((DocV2.generateDocument docScenario).2.getD []).lookup ("target_audience")
        = some (JsonVal.str docScenario.targetAudience)
    ∧ ((DocV2.generateDocument docScenario).2.getD []).lookup ("tone_style")
        = some (JsonVal.str docScenario.toneStyle)
    ∧ ((DocV2.generateDocument docScenario).2.getD []).lookup ("document_title")
        = some (JsonVal.str docScenario.documentTitle)
    ∧ docScenario.documentTitle ≠ ""
    ∧ ((DocV2.generateDocument docScenario).2.getD []).lookup ("purpose")
        = some (JsonVal.str docScenario.purpose)
    ∧ docScenario.purpose ≠ ""
    ∧ ((DocV2.generateDocument docScenario).2.getD []).lookup ("key_points")
        = some (JsonVal.arr (parseCommaNewline docScenario.keyPointsInput)) :=
  c5_optional_keys_amended.1 docScenario
    { docScenario with isLoading := true, error := "", result := none }
    ((DocV2.generateDocument docScenario).2.getD [])
    (by decide)
